import Mathlib

/-!
Shallow embedding of the weather data acquisition and resilience layer of
the WeatherFlow repository (src/src/lib/api.ts, src/src/lib/storage.ts and
the Home page component), together with theorems settling the frozen claims
about it.

Modelling conventions:
* JavaScript numbers that only flow through the code unchanged (temperatures,
  coordinates, wind) are modelled as rationals `ℚ`; no floating point
  arithmetic is performed on them by the embedded code paths.
* Timestamps (ISO-8601 strings parsed with `new Date(...).getTime()`) are
  modelled directly by their epoch value (`Int`, milliseconds for snapshot
  timestamps, seconds for observation times), abstracting the date parsing.
* `fetch` and its network effects are modelled by passing the outcome of the
  HTTP exchange (`Except ApiError ...` or an `HttpResponse`) as an argument,
  together with a count of network requests issued where a claim needs it.
* `localStorage` is modelled as a `Persistence` value: either unavailable
  (covers `typeof window === 'undefined'` and a storage medium that throws)
  or available with optional contents; the raw medium operations can throw
  (`RawResult.thrown`) and the wrappers from storage.ts catch.
-/

namespace WeatherFlow

/-- The `Units` type from src/src/lib/types.ts: `'metric' | 'imperial'`. -/
inductive Units where
  | metric
  | imperial
deriving DecidableEq, Repr

/-- `GeoPoint` from src/src/lib/types.ts: `{lat, lon, name?, country?}`. -/
structure GeoPoint where
  lat : ℚ
  lon : ℚ
  name : Option String
  country : Option String
deriving DecidableEq, Repr

/-- An error thrown by the api layer: `new Error(message)`. -/
structure ApiError where
  message : String
deriving DecidableEq, Repr

/-- One geocoding result from the Open-Meteo geocoding API. -/
structure OpenMeteoGeocodingResult where
  latitude : ℚ
  longitude : ℚ
  name : String
  country : Option String
deriving DecidableEq, Repr

/-- Parsed JSON body of a geocoding search response.  `results := none`
models the `!data.results || !Array.isArray(data.results)` cases (field
absent or not an array). -/
structure GeocodingBody where
  results : Option (List OpenMeteoGeocodingResult)
deriving DecidableEq, Repr

/-- The part of a `fetch` `Response` that searchCity inspects. -/
structure HttpResponse where
  ok : Bool
  status : Nat
  statusText : String
  body : GeocodingBody
deriving DecidableEq, Repr

/-- JavaScript `String.prototype.trim`: the string with leading and trailing
whitespace removed (modelled structurally so that it evaluates by `decide`). -/
def jsTrim (s : String) : String :=
  String.mk (((s.data.dropWhile Char.isWhitespace).reverse.dropWhile
    Char.isWhitespace).reverse)

/-- The message of the error thrown by `searchCity` on a non-2xx response:
backtick-template "Failed to search cities: status statusText". -/
def searchFailMessage (status : Nat) (statusText : String) : String :=
  "Failed to search cities: " ++ toString status ++ " " ++ statusText

/-- `searchCity` from src/src/lib/api.ts lines 20-45, with the outcome of the
HTTP exchange passed in.  The second component counts the network requests
issued by the call (`fetch` is reached only past the empty-query guard). -/
def searchCity (query : String) (response : HttpResponse) :
    Except ApiError (List GeoPoint) × Nat :=
  if jsTrim query = "" then
    (Except.ok [], 0)
  else if !response.ok then
    (Except.error { message := searchFailMessage response.status response.statusText }, 1)
  else
    match response.body.results with
    | none => (Except.ok [], 1)
    | some rs =>
        (Except.ok (rs.map fun r =>
          { lat := r.latitude, lon := r.longitude,
            name := some r.name, country := r.country }), 1)

/-- C10: an empty or all-whitespace query returns the empty list with zero
network requests issued, whatever the network would have answered. -/
theorem searchCity_blank_query_no_network (query : String)
    (response : HttpResponse) (hq : jsTrim query = "") :
    searchCity query response = (Except.ok [], 0) := by
  simp [searchCity, hq]

/-- A sample 200 response whose body has no result array. -/
def emptyOkResponse : HttpResponse :=
  { ok := true, status := 200, statusText := "OK", body := { results := none } }

/-- A sample 503 response. -/
def failResponse : HttpResponse :=
  { ok := false, status := 503, statusText := "Service Unavailable",
    body := { results := none } }

/-- Closed instance of `searchCity_blank_query_no_network` at the
whitespace-only query `"   "`. -/
theorem searchCity_blank_query_no_network_witness :
    searchCity "   " emptyOkResponse = (Except.ok [], 0) :=
  searchCity_blank_query_no_network "   " _ (by decide)

/-- C9: for a search that reaches the network, a non-2xx response produces an
error whose message carries the HTTP status, and a 2xx response with an
absent/non-array or empty result array produces the empty list, not an
error. -/
theorem searchCity_error_and_empty (query : String) (response : HttpResponse)
    (hq : jsTrim query ≠ "") :
    (response.ok = false →
      searchCity query response =
        (Except.error { message := searchFailMessage response.status response.statusText }, 1)) ∧
    (response.ok = true → response.body.results = none →
      searchCity query response = (Except.ok [], 1)) ∧
    (response.ok = true → response.body.results = some [] →
      searchCity query response = (Except.ok [], 1)) := by
  refine ⟨fun hok => ?_, fun hok hres => ?_, fun hok hres => ?_⟩
  · simp [searchCity, hq, hok]
  · simp [searchCity, hq, hok, hres]
  · simp [searchCity, hq, hok, hres]

/-- Closed instance of `searchCity_error_and_empty`: a 503 response yields the
status-carrying error, and a 200 response with no result array yields `[]`. -/
theorem searchCity_error_and_empty_witness :
    searchCity "London" failResponse =
      (Except.error { message := searchFailMessage 503 "Service Unavailable" }, 1) ∧
    searchCity "London" emptyOkResponse = (Except.ok [], 1) :=
  ⟨(searchCity_error_and_empty "London" _ (by decide)).1 rfl,
   (searchCity_error_and_empty "London" _ (by decide)).2.1 rfl rfl⟩

/-- One `{id, main, description, icon}` weather condition entry. -/
structure WeatherCondition where
  id : Nat
  main : String
  description : String
  icon : String
deriving DecidableEq, Repr

/-- The `main` block of `CurrentWeather`. -/
structure MainBlock where
  temp : ℚ
  feels_like : ℚ
  humidity : ℚ
  pressure : ℚ
deriving DecidableEq, Repr

/-- The `wind` block of `CurrentWeather`. -/
structure WindBlock where
  speed : ℚ
  deg : ℚ
deriving DecidableEq, Repr

/-- The `coord` block of `CurrentWeather`. -/
structure Coord where
  lat : ℚ
  lon : ℚ
deriving DecidableEq, Repr

/-- `CurrentWeather` from src/src/lib/types.ts, as built by
`getCurrentOpenMeteo`. -/
structure CurrentWeather where
  coord : Coord
  dt : Int
  timezone : Int
  name : String
  weather : List WeatherCondition
  main : MainBlock
  wind : WindBlock
deriving DecidableEq, Repr

/-- The `temp` block of one daily forecast entry. -/
structure TempRange where
  min : ℚ
  max : ℚ
deriving DecidableEq, Repr

/-- One daily entry of a `Forecast`. -/
structure DailyForecast where
  dt : Int
  temp : TempRange
  weather : List WeatherCondition
deriving DecidableEq, Repr

/-- One point of the hourly temperature series. -/
structure HourlyPoint where
  time : String
  temperature : ℚ
deriving DecidableEq, Repr

/-- `Forecast` from src/src/lib/types.ts.  The `_cached`/`_cachedAt` fields
are the optional served-from-cache annotations added on the snapshot
fallback path (absent means not cached: defaults `false`/`none`). -/
structure Forecast where
  timezone_offset : Int
  daily : List DailyForecast
  hourly : List HourlyPoint
  _cached : Bool := false
  _cachedAt : Option Int := none
deriving DecidableEq, Repr

/-- The `current` block of an Open-Meteo forecast response.  `time` is the
observation instant as epoch seconds (`Math.floor(new Date(t).getTime()/1000)`
of the ISO string is modelled as the value itself). -/
structure OpenMeteoCurrent where
  time : Int
  temperature_2m : ℚ
  relative_humidity_2m : ℚ
  wind_speed_10m : ℚ
  wind_direction_10m : ℚ
  weathercode : Nat
deriving DecidableEq, Repr

/-- The `daily` block of an Open-Meteo forecast response (parallel arrays,
`time` again as epoch seconds per entry). -/
structure OpenMeteoDaily where
  time : List Int
  weathercode : List Nat
  temperature_2m_max : List ℚ
  temperature_2m_min : List ℚ
deriving DecidableEq, Repr

/-- An Open-Meteo forecast response (the fields the code reads). -/
structure OpenMeteoForecastResponse where
  latitude : ℚ
  longitude : ℚ
  utc_offset_seconds : Int
  current : OpenMeteoCurrent
  daily : OpenMeteoDaily
deriving DecidableEq, Repr

/-! ## storage.ts: persistence model

The raw browser medium either is unavailable (`typeof window === 'undefined'`,
or `localStorage` access throws, e.g. restrictive privacy mode) or holds the
parsed contents of the one snapshot key (`none` = key absent or unparsable).
The wrappers `getJSON`/`setJSON`/`removeKey` are the try/catch blocks of
src/src/lib/storage.ts lines 7-33. -/

/-- Outcome of touching the raw persistence medium. -/
inductive RawResult (α : Type) where
  | ok (a : α)
  | thrown
deriving DecidableEq, Repr

/-- The persistence medium backing one storage key, holding a value of
type `σ`. -/
inductive Persistence (σ : Type) where
  | unavailable
  | available (contents : Option σ)
deriving DecidableEq, Repr

/-- Raw `localStorage.getItem` + `JSON.parse`: throws when the medium is
unavailable. -/
def rawGetItem {σ : Type} : Persistence σ → RawResult (Option σ)
  | Persistence.unavailable => RawResult.thrown
  | Persistence.available c => RawResult.ok c

/-- Raw `localStorage.setItem`: throws when the medium is unavailable. -/
def rawSetItem {σ : Type} (p : Persistence σ) (v : σ) : RawResult (Persistence σ) :=
  match p with
  | Persistence.unavailable => RawResult.thrown
  | Persistence.available _ => RawResult.ok (Persistence.available (some v))

/-- Raw `localStorage.removeItem`: throws when the medium is unavailable. -/
def rawRemoveItem {σ : Type} (p : Persistence σ) : RawResult (Persistence σ) :=
  match p with
  | Persistence.unavailable => RawResult.thrown
  | Persistence.available _ => RawResult.ok (Persistence.available none)

/-- `getJSON` (storage.ts lines 7-15): catches and returns `null`. -/
def getJSON {σ : Type} (p : Persistence σ) : Option σ :=
  match rawGetItem p with
  | RawResult.ok c => c
  | RawResult.thrown => none

/-- `setJSON` (storage.ts lines 17-24): catches and silently leaves the
medium as it was. -/
def setJSON {σ : Type} (p : Persistence σ) (v : σ) : Persistence σ :=
  match rawSetItem p v with
  | RawResult.ok p2 => p2
  | RawResult.thrown => p

/-- `removeKey` (storage.ts lines 26-33): catches and silently leaves the
medium as it was. -/
def removeKey {σ : Type} (p : Persistence σ) : Persistence σ :=
  match rawRemoveItem p with
  | RawResult.ok p2 => p2
  | RawResult.thrown => p

/-- `ForecastSnapshot` (storage.ts lines 83-88).  `timestamp` is the epoch
milliseconds value of the stored ISO string; `units` is the string field
narrowed to the two unit tags the app uses. -/
structure ForecastSnapshot where
  data : Forecast
  timestamp : Int
  city : String
  units : Units
deriving DecidableEq, Repr

/-- `saveSnapshot` (storage.ts lines 90-105): builds the snapshot with the
current time (`now`, epoch ms) and stores it via `setJSON`; its own
try/catch and `window` guard coincide with the `Persistence.unavailable`
case of `setJSON`. -/
def saveSnapshot (p : Persistence ForecastSnapshot) (data : Forecast)
    (city : String) (units : Units) (now : Int) : Persistence ForecastSnapshot :=
  setJSON p { data := data, timestamp := now, city := city, units := units }

/-- `getSnapshot` (storage.ts lines 107-114). -/
def getSnapshot (p : Persistence ForecastSnapshot) : Option ForecastSnapshot :=
  getJSON p

/-- `clearSnapshot` (storage.ts lines 116-123). -/
def clearSnapshot (p : Persistence ForecastSnapshot) : Persistence ForecastSnapshot :=
  removeKey p

/-- `isSnapshotRecent` (storage.ts lines 126-132): age strictly under
24 hours, with `now` the current epoch-ms time. -/
def isSnapshotRecent (now : Int) (snapshot : ForecastSnapshot) : Bool :=
  decide ((now - snapshot.timestamp) < 24 * 60 * 60 * 1000)

/-! ## api.ts: normalization and the forecast orchestration -/

/-- JavaScript `Number.prototype.toFixed(2)` on a rational: the decimal
string with exactly two fraction digits.  (JS rounds the shortest decimal
representation of the double; on the exact rational this is rounding to the
nearest centesimal, which agrees on every input the claims touch.) -/
def toFixed2 (q : ℚ) : String :=
  let n : Int := round (q * 100)
  let sign := if n < 0 then "-" else ""
  let m := n.natAbs
  let f := m % 100
  sign ++ toString (m / 100) ++ "." ++ (if f < 10 then "0" else "") ++ toString f

/-- The city-name template `"lat.toFixed(2), lon.toFixed(2)"` used for the
`name` field and the snapshot city key. -/
def cityName (lat lon : ℚ) : String :=
  toFixed2 lat ++ ", " ++ toFixed2 lon

/-- The `weatherMap` record literal of `getWeatherMain`
(src/src/lib/api.ts lines 233-247), as an association list. -/
def weatherMap : List (Nat × String) :=
  [(0, "Clear"),
   (1, "Clear"), (2, "Clear"), (3, "Clear"),
   (45, "Fog"), (48, "Fog"),
   (51, "Drizzle"), (53, "Drizzle"), (55, "Drizzle"),
   (56, "Drizzle"), (57, "Drizzle"),
   (61, "Rain"), (63, "Rain"), (65, "Rain"),
   (66, "Rain"), (67, "Rain"),
   (71, "Snow"), (73, "Snow"), (75, "Snow"),
   (77, "Snow"),
   (80, "Rain"), (81, "Rain"), (82, "Rain"),
   (85, "Snow"), (86, "Snow"),
   (95, "Thunderstorm"),
   (96, "Thunderstorm"), (99, "Thunderstorm")]

/-- `getWeatherMain` (api.ts lines 232-250): `weatherMap[code] || 'Unknown'`.
The inner `if` models the JS `||` exactly (an empty string would also be
falsy; no table value is empty). -/
def getWeatherMain (code : Nat) : String :=
  match weatherMap.lookup code with
  | some s => if s = "" then "Unknown" else s
  | none => "Unknown"

/-- `getCurrentOpenMeteo` (api.ts lines 61-103), normalization step.  The
HTTP exchange is abstracted into the `data` argument; the helpers imported
from the absent module weatherIconOpenMeteo.ts (`isOpenMeteoDayTime`,
`getOpenMeteoWeatherIcon`, `getOpenMeteoWeatherDescription`) are passed as
the parameters `isDay`, `iconFor`, `descFor`. -/
def getCurrentOpenMeteo (data : OpenMeteoForecastResponse)
    (isDay : Int → Bool) (iconFor : Nat → Bool → String)
    (descFor : Nat → String) : CurrentWeather :=
  let timestamp := data.current.time
  let weatherIcon := iconFor data.current.weathercode (isDay timestamp)
  { coord := { lat := data.latitude, lon := data.longitude }
    dt := timestamp
    timezone := data.utc_offset_seconds
    name := cityName data.latitude data.longitude
    weather := [{ id := data.current.weathercode,
                  main := getWeatherMain data.current.weathercode,
                  description := descFor data.current.weathercode,
                  icon := weatherIcon }]
    main := { temp := data.current.temperature_2m,
              feels_like := data.current.temperature_2m,
              humidity := data.current.relative_humidity_2m,
              pressure := 1013 }
    wind := { speed := data.current.wind_speed_10m,
              deg := data.current.wind_direction_10m } }

/-- The `daily.time.map((time, index) => ...)` normalization of
`getForecast` (api.ts lines 146-164).  Out-of-range parallel-array access
(JS `undefined`) is modelled by `getD` defaults; the arrays are parallel in
every response. -/
def normalizeDaily (daily : OpenMeteoDaily) (isDay : Int → Bool)
    (iconFor : Nat → Bool → String) (descFor : Nat → String) :
    List DailyForecast :=
  (List.range daily.time.length).map fun index =>
    let timestamp := daily.time.getD index 0
    let code := daily.weathercode.getD index 0
    { dt := timestamp
      temp := { min := daily.temperature_2m_min.getD index 0,
                max := daily.temperature_2m_max.getD index 0 }
      weather := [{ id := code,
                    main := getWeatherMain code,
                    description := descFor code,
                    icon := iconFor code (isDay timestamp) }] }

/-- The `Forecast` value built on the success path of `getForecast`
(api.ts lines 185-189).  `hourlyData` stands for the output of
`buildDeterministicHourly`, whose floating-point trigonometry
(`Math.sin`/`Math.cos`) is abstracted as a parameter; no claim constrains
its contents. -/
def normalizeForecastOM (data : OpenMeteoForecastResponse)
    (isDay : Int → Bool) (iconFor : Nat → Bool → String)
    (descFor : Nat → String) (hourlyData : List HourlyPoint) : Forecast :=
  { timezone_offset := data.utc_offset_seconds
    daily := normalizeDaily data.daily isDay iconFor descFor
    hourly := hourlyData }

/-- `getForecast` (api.ts lines 129-213), open-meteo branch.  The whole
try block (fetch, `response.ok` check, JSON parse, normalization) is
abstracted into `fetchResult`; the catch block reads the snapshot store.
State passing makes the snapshot write on the success path happen in the
same step that produces the returned forecast (the synchronous
`saveSnapshot` call before `return`). -/
def getForecastOpenMeteo (lat lon : ℚ) (units : Units)
    (isDay : Int → Bool) (iconFor : Nat → Bool → String)
    (descFor : Nat → String) (hourlyData : List HourlyPoint)
    (fetchResult : Except ApiError OpenMeteoForecastResponse)
    (now : Int) (store : Persistence ForecastSnapshot) :
    Except ApiError Forecast × Persistence ForecastSnapshot :=
  match fetchResult with
  | Except.ok data =>
      let forecast := normalizeForecastOM data isDay iconFor descFor hourlyData
      (Except.ok forecast, saveSnapshot store forecast (cityName lat lon) units now)
  | Except.error e =>
      match getSnapshot store with
      | some snapshot =>
          if isSnapshotRecent now snapshot then
            (Except.ok { snapshot.data with _cached := true,
                                            _cachedAt := some snapshot.timestamp },
             store)
          else
            (Except.error e, store)
      | none => (Except.error e, store)

/-- C7: when the persistence medium is unavailable (raw accesses throw),
save and clear return normally leaving the medium untouched, load returns
`none`, and loading from an unavailable medium is indistinguishable from
loading from an empty one; the raw medium really does throw there. -/
theorem snapshot_store_unavailable_noop :
    (∀ (d : Forecast) (c : String) (u : Units) (now : Int),
      saveSnapshot Persistence.unavailable d c u now = Persistence.unavailable) ∧
    getSnapshot Persistence.unavailable = none ∧
    clearSnapshot Persistence.unavailable = Persistence.unavailable ∧
    getSnapshot Persistence.unavailable = getSnapshot (Persistence.available none) ∧
    (∀ (s : ForecastSnapshot),
      rawSetItem Persistence.unavailable s = RawResult.thrown) ∧
    rawGetItem (Persistence.unavailable : Persistence ForecastSnapshot) =
      RawResult.thrown ∧
    rawRemoveItem (Persistence.unavailable : Persistence ForecastSnapshot) =
      RawResult.thrown :=
  ⟨fun _ _ _ _ => rfl, rfl, rfl, rfl, fun _ => rfl, rfl, rfl⟩

/-- C8: for every Open-Meteo current-weather response the normalized record
substitutes the base temperature for the missing `feels_like` and the
constant 1013 for the missing pressure. -/
theorem openMeteo_substitutes_missing_fields (data : OpenMeteoForecastResponse)
    (isDay : Int → Bool) (iconFor : Nat → Bool → String)
    (descFor : Nat → String) :
    (getCurrentOpenMeteo data isDay iconFor descFor).main.feels_like
      = data.current.temperature_2m ∧
    (getCurrentOpenMeteo data isDay iconFor descFor).main.pressure = 1013 :=
  ⟨rfl, rfl⟩

/-- C6: every successful forecast fetch against an available store
overwrites the snapshot slot with the newly normalized forecast, tagged
with the current time, the location key and the units, in the same step
that returns that forecast. -/
theorem forecast_success_overwrites_snapshot (lat lon : ℚ) (units : Units)
    (isDay : Int → Bool) (iconFor : Nat → Bool → String)
    (descFor : Nat → String) (hourlyData : List HourlyPoint)
    (data : OpenMeteoForecastResponse) (now : Int)
    (c : Option ForecastSnapshot) :
    getForecastOpenMeteo lat lon units isDay iconFor descFor hourlyData
        (Except.ok data) now (Persistence.available c) =
      (Except.ok (normalizeForecastOM data isDay iconFor descFor hourlyData),
       Persistence.available (some
         { data := normalizeForecastOM data isDay iconFor descFor hourlyData,
           timestamp := now,
           city := cityName lat lon,
           units := units })) :=
  rfl

/-- C1: when the forecast fetch fails, the operation reads the snapshot
store; a snapshot aged strictly under 24 hours is returned with the
`_cached` marker and its original timestamp, a snapshot aged 24 hours or
more (or no snapshot at all) makes the original error propagate, the store
untouched in every case. -/
theorem forecast_failure_snapshot_fallback (lat lon : ℚ) (units : Units)
    (isDay : Int → Bool) (iconFor : Nat → Bool → String)
    (descFor : Nat → String) (hourlyData : List HourlyPoint)
    (e : ApiError) (now : Int) (store : Persistence ForecastSnapshot) :
    (∀ snapshot, getSnapshot store = some snapshot →
      (now - snapshot.timestamp < 24 * 60 * 60 * 1000 →
        getForecastOpenMeteo lat lon units isDay iconFor descFor hourlyData
            (Except.error e) now store =
          (Except.ok { snapshot.data with _cached := true,
                                          _cachedAt := some snapshot.timestamp },
           store)) ∧
      (24 * 60 * 60 * 1000 ≤ now - snapshot.timestamp →
        getForecastOpenMeteo lat lon units isDay iconFor descFor hourlyData
            (Except.error e) now store = (Except.error e, store))) ∧
    (getSnapshot store = none →
      getForecastOpenMeteo lat lon units isDay iconFor descFor hourlyData
          (Except.error e) now store = (Except.error e, store)) := by
  constructor
  · intro snapshot hs
    constructor
    · intro hrecent
      simp [getForecastOpenMeteo, hs, isSnapshotRecent, hrecent]
      omega
    · intro hstale
      simp [getForecastOpenMeteo, hs, isSnapshotRecent, not_lt.mpr hstale]
      omega
  · intro hs
    simp [getForecastOpenMeteo, hs]

/-- The empty forecast value used by concrete instances. -/
def emptyForecast : Forecast :=
  { timezone_offset := 0, daily := [], hourly := [] }

/-- A snapshot written at epoch instant 0. -/
def sampleSnapshot : ForecastSnapshot :=
  { data := emptyForecast, timestamp := 0, city := "51.50, -0.12",
    units := Units.metric }

/-- The error of a failed forecast fetch. -/
def netError : ApiError :=
  { message := "Failed to fetch forecast: 500 Internal Server Error" }

/-- Closed instance of `forecast_failure_snapshot_fallback`: 25 hours after
the snapshot was written the error propagates, 2 hours after it the
snapshot is served with the cache marker, and with no snapshot the error
propagates. -/
theorem forecast_failure_snapshot_fallback_witness :
    getForecastOpenMeteo 51.5 (-0.12) Units.metric (fun _ => true)
        (fun _ _ => "01d") (fun _ => "") [] (Except.error netError)
        (25 * 60 * 60 * 1000) (Persistence.available (some sampleSnapshot)) =
      (Except.error netError, Persistence.available (some sampleSnapshot)) ∧
    getForecastOpenMeteo 51.5 (-0.12) Units.metric (fun _ => true)
        (fun _ _ => "01d") (fun _ => "") [] (Except.error netError)
        (2 * 60 * 60 * 1000) (Persistence.available (some sampleSnapshot)) =
      (Except.ok { emptyForecast with _cached := true, _cachedAt := some 0 },
       Persistence.available (some sampleSnapshot)) ∧
    getForecastOpenMeteo 51.5 (-0.12) Units.metric (fun _ => true)
        (fun _ _ => "01d") (fun _ => "") [] (Except.error netError)
        (25 * 60 * 60 * 1000) (Persistence.available none) =
      (Except.error netError, Persistence.available none) :=
  ⟨((forecast_failure_snapshot_fallback 51.5 (-0.12) Units.metric (fun _ => true)
      (fun _ _ => "01d") (fun _ => "") [] netError (25 * 60 * 60 * 1000)
      (Persistence.available (some sampleSnapshot))).1 sampleSnapshot rfl).2
      (by decide),
   ((forecast_failure_snapshot_fallback 51.5 (-0.12) Units.metric (fun _ => true)
      (fun _ _ => "01d") (fun _ => "") [] netError (2 * 60 * 60 * 1000)
      (Persistence.available (some sampleSnapshot))).1 sampleSnapshot rfl).1
      (by decide),
   (forecast_failure_snapshot_fallback 51.5 (-0.12) Units.metric (fun _ => true)
      (fun _ _ => "01d") (fun _ => "") [] netError (25 * 60 * 60 * 1000)
      (Persistence.available none)).2 rfl⟩

/-! ## Home page component (src/unnamed/part_001): retry policy and query keys -/

/-- An error as seen by the retry predicate: `status` is `some s` exactly
when the error object has a numeric `status` property
(`'status' in error && typeof error.status === 'number'`). -/
structure QueryError where
  status : Option Int
deriving DecidableEq, Repr

/-- The `retry` option of both useQuery calls (part_001 lines 95-101 and
121-127): errors with an HTTP status in [400, 500) are never retried,
anything else is retried while the failure count is below 1. -/
def retryPred (failureCount : Nat) (error : QueryError) : Bool :=
  if (match error.status with
      | some s => decide (400 ≤ s) && decide (s < 500)
      | none => false) then
    false
  else
    decide (failureCount < 1)

/-- The `retryDelay` option (part_001 lines 102 and 128):
`Math.min(1000 * 2 ** attemptIndex, 30000)`. -/
def retryDelay (attemptIndex : Nat) : Nat :=
  min (1000 * 2 ^ attemptIndex) 30000

/-- The query retry driver (the library loop the `retry` option feeds):
attempt, and on failure consult `retryPred` with the current failure count
before incrementing it and attempting again.  `fetcher n` is the outcome of
attempt `n`; the result pairs the final outcome with the index of the last
attempt made (= the number of retries when every attempt fails). -/
def runQuery {α : Type} (fetcher : Nat → Except QueryError α)
    (fuel failureCount : Nat) : Except QueryError α × Nat :=
  match fetcher failureCount with
  | Except.ok v => (Except.ok v, failureCount)
  | Except.error e =>
      match fuel with
      | 0 => (Except.error e, failureCount)
      | Nat.succ f =>
          if retryPred failureCount e then
            runQuery fetcher f (failureCount + 1)
          else
            (Except.error e, failureCount)

/-- C2: an error with an HTTP status in [400, 500) is never retried and
propagates with zero retries; retries are only ever granted at failure
count 0 (hence at most one retry for any error); an error the predicate
does admit is retried exactly once when every attempt fails; and the delay
before retry attempt `n` is `min(1000 * 2^n, 30000)` milliseconds. -/
theorem retry_policy_classification :
    (∀ (s : Int) (n : Nat), 400 ≤ s → s < 500 →
      retryPred n { status := some s } = false) ∧
    (∀ (s : Int) (fuel : Nat) (α : Type) (v : α), 400 ≤ s → s < 500 →
      runQuery (fun _ => (Except.error { status := some s } : Except QueryError α))
          fuel 0 =
        (Except.error { status := some s }, 0)) ∧
    (∀ (e : QueryError) (n : Nat), retryPred n e = true → n = 0) ∧
    (∀ (e : QueryError) (fuel : Nat) (α : Type) (v : α),
      retryPred 0 e = true → 1 ≤ fuel →
      runQuery (fun _ => (Except.error e : Except QueryError α)) fuel 0 =
        (Except.error e, 1)) ∧
    (∀ (n : Nat), retryDelay n = min (1000 * 2 ^ n) 30000) := by
  have hclient : ∀ (s : Int) (n : Nat), 400 ≤ s → s < 500 →
      retryPred n { status := some s } = false := by
    intro s n h4 h5
    simp [retryPred, h4, h5]
  refine ⟨hclient, ?_, ?_, ?_, fun n => rfl⟩
  · intro s fuel α v h4 h5
    cases fuel with
    | zero => simp [runQuery]
    | succ f => simp [runQuery, hclient s 0 h4 h5]
  · intro e n h
    by_contra hn
    have h1 : 1 ≤ n := Nat.one_le_iff_ne_zero.mpr hn
    simp [retryPred] at h
    omega
  · intro e fuel α v h hfuel
    cases fuel with
    | zero => omega
    | succ f =>
        have hstop : retryPred 1 e = false := by
          simp [retryPred]
        cases f with
        | zero => simp [runQuery, h]
        | succ g => simp [runQuery, h, hstop]

/-- Closed instance of `retry_policy_classification`: a simulated HTTP 404
propagates with zero retries, and a status-less network error is retried
exactly once. -/
theorem retry_policy_classification_witness :
    runQuery (fun _ => (Except.error { status := some 404 } :
        Except QueryError Forecast)) 5 0 =
      (Except.error { status := some 404 }, 0) ∧
    runQuery (fun _ => (Except.error { status := none } :
        Except QueryError Forecast)) 5 0 =
      (Except.error { status := none }, 1) :=
  ⟨retry_policy_classification.2.1 404 5 Forecast emptyForecast
     (by decide) (by decide),
   retry_policy_classification.2.2.2.1 { status := none } 5 Forecast
     emptyForecast (by decide) (by decide)⟩

/-- One TanStack Query cache key, as the spec describes it.

Modelled from the spec: the module src/lib/queryKeys.ts is not among the
sources (only its call sites are); per spec section 4.3 the key is the
tuple `(operation, lat, lon, units)`. -/
structure QueryKey where
  op : String
  lat : ℚ
  lon : ℚ
  units : Units
deriving DecidableEq, Repr

/-- Modelled from the spec: `queryKeys.current` builds the current-weather
key for a location and a unit tag. -/
def queryKeys.current (lat lon : ℚ) (units : Units) : QueryKey :=
  { op := "current", lat := lat, lon := lon, units := units }

/-- Modelled from the spec: `queryKeys.forecast` builds the forecast key
for a location and a unit tag. -/
def queryKeys.forecast (lat lon : ℚ) (units : Units) : QueryKey :=
  { op := "forecast", lat := lat, lon := lon, units := units }

/-- The key under which the Home component looks up and stores current
weather (part_001 line 85): the `'metric'` literal, whatever display unit
(`displayUnits`, the component's `units` state) is selected. -/
def homeCurrentQueryKey (city : GeoPoint) (displayUnits : Units) : QueryKey :=
  queryKeys.current city.lat city.lon Units.metric

/-- The key under which the Home component looks up and stores the forecast
(part_001 line 111): again the `'metric'` literal. -/
def homeForecastQueryKey (city : GeoPoint) (displayUnits : Units) : QueryKey :=
  queryKeys.forecast city.lat city.lon Units.metric

/-- The pair of keys `handleRetry` invalidates (part_001 lines 202-211):
built from the component's current `units` state, not the `'metric'`
literal. -/
def handleRetryKeys (city : GeoPoint) (displayUnits : Units) :
    QueryKey × QueryKey :=
  (queryKeys.current city.lat city.lon displayUnits,
   queryKeys.forecast city.lat city.lon displayUnits)

/-- The London location of the spec's example scenario. -/
def londonCity : GeoPoint :=
  { lat := 51.5, lon := -0.12, name := some "London", country := some "GB" }

/-- C3, evaluated at the failing input: with display units `imperial`, the
lookup/store keys still carry the canonical `metric` unit (so a display-unit
toggle leaves the fetch key unchanged), but the keys `handleRetry`
invalidates carry `imperial` and match neither stored key — the explicit
invalidation is not keyed on the canonical unit as claimed. -/
theorem handleRetry_key_mismatch_imperial :
    homeCurrentQueryKey londonCity Units.imperial =
      homeCurrentQueryKey londonCity Units.metric ∧
    (homeCurrentQueryKey londonCity Units.imperial).units = Units.metric ∧
    (handleRetryKeys londonCity Units.imperial).1.units = Units.imperial ∧
    (handleRetryKeys londonCity Units.imperial).1 ≠
      homeCurrentQueryKey londonCity Units.imperial ∧
    (handleRetryKeys londonCity Units.imperial).2 ≠
      homeForecastQueryKey londonCity Units.imperial ∧
    (handleRetryKeys londonCity Units.imperial).2 ≠
      homeCurrentQueryKey londonCity Units.imperial := by
  refine ⟨rfl, rfl, rfl, ?_, ?_, ?_⟩ <;>
    exact fun h => absurd (congrArg QueryKey.units h) (by decide)

/-! ## Unit conversion (spec section 4.5)

Modelled from the spec: the module src/lib/unitConversion.ts is not among
the sources (only its call sites `convertCurrentWeather(originalCurrentWeather,
'metric', units)` and `convertForecast(originalForecast, 'metric', units)` in
the Home component are).  Spec section 4.5: temperature converts by
`°F = °C * 9/5 + 32` (and inverse), wind speed converts between km/h and mph
by a fixed multiplicative constant, pressure passes through unchanged, and
converting a record to its own current unit is an identity no-op. -/

/-- Modelled from the spec: the fixed km/h → mph multiplicative constant. -/
def KMH_TO_MPH : ℚ := 621371 / 1000000

/-- Modelled from the spec: temperature conversion between unit systems. -/
def convertTemp (t : ℚ) : Units → Units → ℚ
  | Units.metric, Units.imperial => t * 9 / 5 + 32
  | Units.imperial, Units.metric => (t - 32) * 5 / 9
  | _, _ => t

/-- Modelled from the spec: wind-speed conversion between unit systems. -/
def convertWindSpeed (s : ℚ) : Units → Units → ℚ
  | Units.metric, Units.imperial => s * KMH_TO_MPH
  | Units.imperial, Units.metric => s / KMH_TO_MPH
  | _, _ => s

/-- Modelled from the spec: `convertCurrentWeather(record, fromUnits,
toUnits)` converts the temperature-like and wind fields and leaves
everything else (pressure included) unchanged. -/
def convertCurrentWeather (w : CurrentWeather) (fromU toU : Units) :
    CurrentWeather :=
  { w with
    main := { w.main with
              temp := convertTemp w.main.temp fromU toU,
              feels_like := convertTemp w.main.feels_like fromU toU },
    wind := { w.wind with speed := convertWindSpeed w.wind.speed fromU toU } }

/-- Modelled from the spec: `convertForecast(forecast, fromUnits, toUnits)`
converts the daily min/max and hourly temperatures. -/
def convertForecast (f : Forecast) (fromU toU : Units) : Forecast :=
  { f with
    daily := f.daily.map fun d =>
      { d with temp := { min := convertTemp d.temp.min fromU toU,
                         max := convertTemp d.temp.max fromU toU } },
    hourly := f.hourly.map fun h =>
      { h with temperature := convertTemp h.temperature fromU toU } }

/-- C4: °F = °C * 9/5 + 32 with its inverse the other way, wind speed is a
fixed multiplicative constant, pressure is unchanged by conversion,
converting a record to its own current unit is the identity, and the
metric→imperial→metric temperature round trip returns the original value
within 1e-6 (here: exactly). -/
theorem unit_conversion_properties :
    (∀ t : ℚ, convertTemp t Units.metric Units.imperial = t * 9 / 5 + 32) ∧
    (∀ t : ℚ, convertTemp t Units.imperial Units.metric = (t - 32) * 5 / 9) ∧
    (∀ s : ℚ, convertWindSpeed s Units.metric Units.imperial = s * KMH_TO_MPH) ∧
    (∀ (w : CurrentWeather) (u1 u2 : Units),
      (convertCurrentWeather w u1 u2).main.pressure = w.main.pressure) ∧
    (∀ (w : CurrentWeather) (u : Units), convertCurrentWeather w u u = w) ∧
    (∀ (f : Forecast) (u : Units), convertForecast f u u = f) ∧
    (∀ t : ℚ,
      |convertTemp (convertTemp t Units.metric Units.imperial)
          Units.imperial Units.metric - t| < 1 / 1000000) := by
  refine ⟨fun t => rfl, fun t => rfl, fun s => rfl, fun w u1 u2 => rfl,
    fun w u => ?_, fun f u => ?_, fun t => ?_⟩
  · cases u <;> rfl
  · cases u <;> simp [convertForecast, convertTemp]
  · have h : convertTemp (convertTemp t Units.metric Units.imperial)
        Units.imperial Units.metric = t := by
      simp only [convertTemp]
      ring
    rw [h, sub_self, abs_zero]
    norm_num

/-! ## Weather-code translation (C5) -/

/-- A `lookup` hit in an association list returns one of its values. -/
theorem lookup_mem_snd (l : List (Nat × String)) :
    ∀ (c : Nat) (s : String), l.lookup c = some s → s ∈ l.map Prod.snd := by
  induction l with
  | nil => intro c s h; simp [List.lookup] at h
  | cons p t ih =>
      intro c s h
      obtain ⟨k, v⟩ := p
      rw [List.lookup] at h
      cases hkc : (c == k) with
      | true =>
          rw [hkc] at h
          simp only [Option.some.injEq] at h
          simp [← h]
      | false =>
          rw [hkc] at h
          simp [ih c s h]

/-- C5: the condition-code translation is table-driven — every code in the
mapping table yields its mapped category, every absent code yields
`"Unknown"`, and the response `{temperature_2m: 15.2, weathercode: 3}`
normalizes to `main.temp = 15.2` (passed through unchanged) with
`weather[0].main = "Clear"`. -/
theorem weather_code_table_driven :
    (∀ (code : Nat) (s : String), weatherMap.lookup code = some s →
      getWeatherMain code = s) ∧
    (∀ (code : Nat), weatherMap.lookup code = none →
      getWeatherMain code = "Unknown") ∧
    (∀ (lat lon : ℚ) (utc obsTime : Int) (hum wind wdir : ℚ)
        (daily : OpenMeteoDaily) (isDay : Int → Bool)
        (iconFor : Nat → Bool → String) (descFor : Nat → String),
      (getCurrentOpenMeteo
          { latitude := lat, longitude := lon, utc_offset_seconds := utc,
            current := { time := obsTime, temperature_2m := 15.2,
                         relative_humidity_2m := hum, wind_speed_10m := wind,
                         wind_direction_10m := wdir, weathercode := 3 },
            daily := daily } isDay iconFor descFor).main.temp = 15.2 ∧
      ((getCurrentOpenMeteo
          { latitude := lat, longitude := lon, utc_offset_seconds := utc,
            current := { time := obsTime, temperature_2m := 15.2,
                         relative_humidity_2m := hum, wind_speed_10m := wind,
                         wind_direction_10m := wdir, weathercode := 3 },
            daily := daily } isDay iconFor descFor).weather.map
          WeatherCondition.main) = ["Clear"]) := by
  refine ⟨?_, ?_, ?_⟩
  · intro code s h
    have hmem := lookup_mem_snd weatherMap code s h
    have hs : s ≠ "" := by
      intro he
      subst he
      exact absurd hmem (by decide)
    simp [getWeatherMain, h, hs]
  · intro code h
    simp [getWeatherMain, h]
  · intro lat lon utc obsTime hum wind wdir daily isDay iconFor descFor
    exact ⟨rfl, rfl⟩

/-- Closed instance of `weather_code_table_driven`: code 3 is mapped to
`"Clear"` and the unmapped code 42 falls back to `"Unknown"`. -/
theorem weather_code_table_driven_witness :
    getWeatherMain 3 = "Clear" ∧ getWeatherMain 42 = "Unknown" :=
  ⟨weather_code_table_driven.1 3 "Clear" (by decide),
   weather_code_table_driven.2.1 42 (by decide)⟩

end WeatherFlow
